import Mathlib

/-!
Shallow embedding of the pythonapi repository (main.py, utils.py,
auto-import-flows.py, config.py, test_integration.py).

HTTP transport, the XML parser and the Tuya device driver are external
collaborators of the code under verification; they are modelled by explicit
outcome values passed to the embedded handlers, which mirror the source
control flow statement by statement.  Device I/O and background scheduling
are made observable as explicit action lists returned by the handlers.
-/

/-- Python str.strip with no argument: drop leading and trailing whitespace
(embedded over the character list so that it evaluates in the kernel). -/
def pyStrip (s : String) : String :=
  (((s.toList.dropWhile Char.isWhitespace).reverse.dropWhile Char.isWhitespace).reverse).asString

/-- Python str.upper restricted to the ASCII range, as used by the source for
single-letter codes. -/
def pyUpper (s : String) : String :=
  (s.toList.map Char.toUpper).asString

/-- Device commands issued to the Tuya bulb.  `blink c` models
`bulb.blink(bulb.<c>)`; `steady c` models a direct color set such as
`bulb.negro()`.  Color names are the Spanish ones used in the source:
verde = green, rojo = red, azul = blue, blanco = white, negro = black/off. -/
inductive DeviceAction
  | blink (color : String)
  | steady (color : String)
  deriving DecidableEq

/-- COLOR_MAP from main.py lines 69-74. -/
def COLOR_MAP : List (String × String) :=
  [("A", "verde"), ("V", "rojo"), ("B", "azul"), ("R", "blanco")]

/-- apply_code from main.py lines 76-93.  The bulb handle is modelled as
`Option Unit` (`none` = initialization failed, handle is null); the device
calls the function performs are returned as an explicit action list together
with the color name it returns. -/
def apply_code (bulb : Option Unit) (code : String) :
    Except String (String × List DeviceAction) :=
  match bulb with
  | none => .error "Bombilla Tuya no inicializada"
  | some _ =>
    let c := pyUpper (pyStrip code)
    let name := (COLOR_MAP.lookup c).getD "negro"
    if c = "A" then .ok (name, [.blink "verde"])
    else if c = "V" then .ok (name, [.blink "rojo"])
    else if c = "B" then .ok (name, [.blink "azul"])
    else if c = "R" then .ok (name, [.blink "blanco"])
    else .ok (name, [.steady "negro"])

/-- Outcome of `xml.etree.ElementTree.fromstring` plus `root.find("UserString")`
on a raw request body: the body is either not well-formed XML, or parses with
an optional `UserString` text (`none` covers both a missing element and an
element with no text, the two cases that raise ValueError in the source). -/
inductive XmlParse
  | malformed
  | parsed (userString : Option String)
  deriving DecidableEq

/-- parse_user_string_from_xml from main.py lines 95-100. -/
def parse_user_string_from_xml (raw : XmlParse) : Except String String :=
  match raw with
  | .malformed => .error "XML mal formado"
  | .parsed none => .error "No se encontro UserString en el XML"
  | .parsed (some t) => .ok (pyStrip t)

/-- A raw request body: either empty (falsy in `if not raw`) or non-empty with
a given XML parse outcome. -/
inductive RawBody
  | empty
  | nonempty (parse : XmlParse)
  deriving DecidableEq

/-- Background tasks scheduled by route handlers via BackgroundTasks.add_task. -/
inductive BgTask
  | applyCodeTask (code : String)
  | testSeq
  deriving DecidableEq

/-- Observable result of one route handler invocation: HTTP status (raised
HTTPException statuses included), the background tasks it scheduled, and the
color echoed in a success body when the route has one. -/
structure RouteResult where
  status : Nat
  scheduled : List BgTask
  color : Option String
  deriving DecidableEq

/-- The allow-list check at main.py line 148:
`if ALLOW_IP and request.client and request.client.host != ALLOW_IP`.
Returns true when the request is NOT rejected. -/
def ipAllowed (allowIp : String) (clientHost : Option String) : Bool :=
  match clientHost with
  | none => true
  | some h => allowIp = "" || h = allowIp

/-- symphony_legacy from main.py lines 146-162, the legacy XML notification
route.  Checks run in source order: IP allow-list (403), empty body (400),
null bulb handle (503), XML parse / missing UserString (400); on success it
schedules apply_code as a background task and echoes the resolved color. -/
def symphony_legacy (allowIp : String) (clientHost : Option String)
    (bulb : Option Unit) (raw : RawBody) : RouteResult :=
  if ¬ ipAllowed allowIp clientHost then ⟨403, [], none⟩
  else match raw with
    | .empty => ⟨400, [], none⟩
    | .nonempty p =>
      if bulb.isNone then ⟨503, [], none⟩
      else match parse_user_string_from_xml p with
        | .error _ => ⟨400, [], none⟩
        | .ok us => ⟨200, [.applyCodeTask us], some ((COLOR_MAP.lookup (pyUpper us)).getD "negro")⟩

/-- symphony_api from main.py lines 164-166: delegates to symphony_legacy. -/
def symphony_api (allowIp : String) (clientHost : Option String)
    (bulb : Option Unit) (raw : RawBody) : RouteResult :=
  symphony_legacy allowIp clientHost bulb raw

/-- tuya_test from main.py lines 168-177. -/
def tuya_test (bulb : Option Unit) : RouteResult :=
  if bulb.isNone then ⟨503, [], none⟩
  else ⟨200, [.testSeq], none⟩

/-- tuya_code from main.py lines 179-185: upper-cases the path parameter (no
strip), schedules apply_code on it and echoes the mapped color. -/
def tuya_code (bulb : Option Unit) (code : String) : RouteResult :=
  if bulb.isNone then ⟨503, [], none⟩
  else
    let c := pyUpper code
    ⟨200, [.applyCodeTask c], some ((COLOR_MAP.lookup c).getD "negro")⟩

/-- JSON values, for modelling response bodies and response dictionaries. -/
inductive JsonVal
  | null
  | bool (b : Bool)
  | num (n : Int)
  | str (s : String)
  | arr (xs : List JsonVal)
  | obj (fields : List (String × JsonVal))

/-- An HTTP response from the engine: status code, raw text body, and the
result of attempting `response.json()` (`none` when the body is not valid
JSON, i.e. json.JSONDecodeError is raised). -/
structure HttpResponse where
  status : Nat
  text : String
  json : Option JsonVal

/-- Outcome of issuing one request with httpx: either a response came back, or
the transport failed (httpx.RequestError: connection refused, timeout, ...). -/
inductive RequestOutcome
  | ok (resp : HttpResponse)
  | requestError (msg : String)

/-- Errors the NodeRedClient methods re-raise to their caller. -/
inductive ClientError
  | httpStatusError (status : Nat) (body : String)
  | requestError (msg : String)

/-- httpx `response.is_success`, the condition under which raise_for_status
does not raise: a 2xx status. -/
def isSuccessStatus (s : Nat) : Bool :=
  200 ≤ s && s < 300

/-- NodeRedClient.get_data from utils.py lines 66-103: raise_for_status, then
parse JSON, falling back to wrapping the raw text as `{"data": text}`. -/
def get_data (outcome : RequestOutcome) : Except ClientError JsonVal :=
  match outcome with
  | .requestError m => .error (.requestError m)
  | .ok r =>
    if isSuccessStatus r.status then
      match r.json with
      | some v => .ok v
      | none => .ok (.obj [("data", .str r.text)])
    else .error (.httpStatusError r.status r.text)

/-- NodeRedClient.send_data from utils.py lines 105-140: raise_for_status, then
parse JSON, falling back to `{"response": text, "status_code": code}`. -/
def send_data (outcome : RequestOutcome) : Except ClientError JsonVal :=
  match outcome with
  | .requestError m => .error (.requestError m)
  | .ok r =>
    if isSuccessStatus r.status then
      match r.json with
      | some v => .ok v
      | none => .ok (.obj [("response", .str r.text), ("status_code", .num (r.status : Int))])
    else .error (.httpStatusError r.status r.text)

/-- NodeRedClient.put_data from utils.py lines 142-171; same response handling
as send_data. -/
def put_data (outcome : RequestOutcome) : Except ClientError JsonVal :=
  match outcome with
  | .requestError m => .error (.requestError m)
  | .ok r =>
    if isSuccessStatus r.status then
      match r.json with
      | some v => .ok v
      | none => .ok (.obj [("response", .str r.text), ("status_code", .num (r.status : Int))])
    else .error (.httpStatusError r.status r.text)

/-- NodeRedClient.delete_data from utils.py lines 173-201; same response
handling as send_data. -/
def delete_data (outcome : RequestOutcome) : Except ClientError JsonVal :=
  match outcome with
  | .requestError m => .error (.requestError m)
  | .ok r =>
    if isSuccessStatus r.status then
      match r.json with
      | some v => .ok v
      | none => .ok (.obj [("response", .str r.text), ("status_code", .num (r.status : Int))])
    else .error (.httpStatusError r.status r.text)

/-- Outcome of the single GET issued by check_connection: a response with some
status, an httpx.ConnectError, or any other exception. -/
inductive ConnectionOutcome
  | response (status : Nat)
  | connectError
  | otherError (msg : String)

/-- The status record returned by check_connection. -/
structure ConnectionStatus where
  status : String
  message : String
  url : String
  deriving DecidableEq

/-- NodeRedClient.check_connection from utils.py lines 31-64: a total function
of the request outcome - every exception is caught and turned into a record. -/
def check_connection (baseUrl : String) (outcome : ConnectionOutcome) : ConnectionStatus :=
  match outcome with
  | .response s =>
    if s = 200 then ⟨"connected", "Node-RED is reachable", baseUrl⟩
    else ⟨"error", "Node-RED responded with status " ++ toString s, baseUrl⟩
  | .connectError => ⟨"disconnected", "Cannot connect to Node-RED", baseUrl⟩
  | .otherError m => ⟨"error", "Connection check failed: " ++ m, baseUrl⟩

/-- format_node_red_response from utils.py lines 228-245, returned dictionary
modelled as a JSON object in field order. -/
def format_node_red_response (data : JsonVal) (endpoint : String) : JsonVal :=
  .obj [("success", .bool true),
        ("data", data),
        ("source", .str "node-red"),
        ("endpoint", .str endpoint),
        ("timestamp", .str "2025-08-26T00:42:45Z")]

/-- Field lookup in a JSON object (none on non-objects or missing keys). -/
def jsonField (v : JsonVal) (k : String) : Option JsonVal :=
  match v with
  | .obj fields => fields.lookup k
  | _ => none

/-- Outcome of one readiness-poll attempt in the importer: an HTTP response
with some status, or an exception (timeout, connection refused, ...). -/
inductive AttemptOutcome
  | resp (status : Nat)
  | exn
  deriving DecidableEq

/-- MAX_RETRIES from auto-import-flows.py line 18. -/
def MAX_RETRIES : Nat := 30

/-- RETRY_INTERVAL (seconds) from auto-import-flows.py line 19. -/
def RETRY_INTERVAL : Nat := 5

/-- The per-request timeout of each poll attempt, auto-import-flows.py line 34:
`aiohttp.ClientTimeout(total=5)` built afresh inside every attempt. -/
def ATTEMPT_TIMEOUT : Nat := 5

/-- Observable result of wait_for_node_red: whether it succeeded, how many GET
/ attempts it issued, and the per-request timeout attached to each of them. -/
structure WaitResult where
  success : Bool
  attemptsMade : Nat
  requestTimeouts : List Nat
  deriving DecidableEq

/-- The retry loop body of wait_for_node_red, auto-import-flows.py lines
31-42: succeed as soon as one response has status exactly 200; any other
status or any exception falls through to the next attempt. -/
def waitLoop : List AttemptOutcome → WaitResult
  | [] => ⟨false, 0, []⟩
  | o :: rest =>
    if o = .resp 200 then ⟨true, 1, [ATTEMPT_TIMEOUT]⟩
    else
      let r := waitLoop rest
      ⟨r.success, r.attemptsMade + 1, ATTEMPT_TIMEOUT :: r.requestTimeouts⟩

/-- NodeRedAutoImport.wait_for_node_red from auto-import-flows.py lines 27-45:
the loop runs `for attempt in range(1, MAX_RETRIES + 1)`, so at most
MAX_RETRIES outcomes of the environment are consumed. -/
def wait_for_node_red (outcomes : List AttemptOutcome) : WaitResult :=
  waitLoop (outcomes.take MAX_RETRIES)

/-- One record of the flow array returned by GET /flows: `flow.get("type")`
and `flow.get("label")` (absent dictionary keys are `none`). -/
structure FlowNode where
  type : Option String
  label : Option String
  deriving DecidableEq

/-- NodeRedAutoImport.check_flows_exist from auto-import-flows.py lines
142-156.  `get_current_flows` is abstracted as `Option (List FlowNode)`
(`none` = non-200 or exception); `if not current_flows` also treats an empty
array as absent.  Flows exist when some record of type "tab" has label
"API Endpoints". -/
def check_flows_exist (flowsResponse : Option (List FlowNode)) : Bool :=
  match flowsResponse with
  | none => false
  | some flows =>
    if flows = [] then false
    else (flows.filter (fun f => f.type = some "tab")).any
      (fun tab => tab.label = some "API Endpoints")

/-- The engine environment one importer run interacts with: readiness-poll
outcomes, the GET /flows response, per-endpoint verification statuses
(`none` = exception), the flows.json load result (`none` = missing file or
invalid JSON), and the POST /flows status (`none` = exception). -/
structure EngineEnv where
  rootOutcomes : List AttemptOutcome
  flowsResponse : Option (List FlowNode)
  endpointStatus : String → Option Nat
  flowsFile : Option (List FlowNode)
  importResult : Option Nat

/-- NodeRedAutoImport.verify_endpoints from auto-import-flows.py lines
120-140: all of /sensors, /devices, /status must answer 200. -/
def verify_endpoints (env : EngineEnv) : Bool :=
  ["/sensors", "/devices", "/status"].all
    (fun e => env.endpointStatus e = some 200)

/-- The importer steps observable in a run trace.  `deploy` is listed because
deploy_flows exists in the source (lines 97-118), though run() never calls
it. -/
inductive ImportStep
  | awaitReady
  | checkFlows
  | loadFile
  | install
  | deploy
  | settle
  | verify
  deriving DecidableEq

/-- The load-install-settle-verify tail of run() (steps 3-6, auto-import-
flows.py lines 181-206), entered when flows are absent or verification of
existing flows failed.  `if not flows` treats an empty loaded array as a
failed load; import success requires POST /flows to answer 200 or 204. -/
def continueImport (env : EngineEnv) (tr : List ImportStep) : Bool × List ImportStep :=
  match env.flowsFile with
  | none => (false, tr ++ [.loadFile])
  | some fl =>
    if fl = [] then (false, tr ++ [.loadFile])
    else match env.importResult with
      | some s =>
        if s = 200 ∨ s = 204 then
          (verify_endpoints env, tr ++ [.loadFile, .install, .settle, .verify])
        else (false, tr ++ [.loadFile, .install])
      | none => (false, tr ++ [.loadFile, .install])

/-- NodeRedAutoImport.run from auto-import-flows.py lines 158-206, returning
the run result together with the trace of steps executed, in order. -/
def runImport (env : EngineEnv) : Bool × List ImportStep :=
  if (wait_for_node_red env.rootOutcomes).success then
    if check_flows_exist env.flowsResponse then
      if verify_endpoints env then (true, [.awaitReady, .checkFlows, .verify])
      else continueImport env [.awaitReady, .checkFlows, .verify]
    else continueImport env [.awaitReady, .checkFlows]
  else (false, [.awaitReady])

/-- Split a path into slash-separated segments (structural recursion so the
kernel can evaluate it). -/
def splitSegsAux : List Char → List Char → List (List Char)
  | [], acc => [acc.reverse]
  | c :: cs, acc =>
    if c = '/' then acc.reverse :: splitSegsAux cs []
    else splitSegsAux cs (c :: acc)

/-- Left brace character (FastAPI path-parameter delimiter). -/
def lbrace : Char := Char.ofNat 123

/-- Right brace character. -/
def rbrace : Char := Char.ofNat 125

/-- A FastAPI path-parameter segment such as the code parameter of
/api/tuya/code. -/
def isParamSeg (seg : List Char) : Bool :=
  match seg with
  | [] => false
  | c :: cs => c = lbrace && cs ≠ [] && cs.getLast? = some rbrace

/-- One pattern segment matches one concrete segment when they are equal or
the pattern segment is a path parameter and the concrete one is non-empty. -/
def segMatches (pat seg : List Char) : Bool :=
  pat = seg || (isParamSeg pat && seg ≠ [])

/-- FastAPI route matching of a path pattern against a concrete path. -/
def routeMatches (pat path : String) : Bool :=
  let ps := splitSegsAux pat.toList []
  let ss := splitSegsAux path.toList []
  ps.length = ss.length && (List.zip ps ss).all (fun z => segMatches z.1 z.2)

/-- The complete route table registered on the FastAPI app in main.py
(lines 105-185): the decorated method and path of every handler. -/
def mainRoutes : List (String × String) :=
  [("GET", "/"),
   ("GET", "/api/health"),
   ("GET", "/api/sensors"),
   ("GET", "/symphony"),
   ("GET", "/api/tuya/symphony"),
   ("GET", "/api/tuya/test"),
   ("GET", "/api/tuya/code/{code}")]

/-- Whether the service has a handler for a given method and path; a request
matching no registered route gets FastAPI's 404. -/
def handlesRequest (method path : String) : Bool :=
  mainRoutes.any (fun r => r.1 = method && routeMatches r.2 path)

/-- The requests test_integration.py lines 79-86 sends to the Python API
service itself. -/
def integrationTestApiCalls : List (String × String) :=
  [("GET", "/"),
   ("GET", "/api/health"),
   ("GET", "/api/sensors"),
   ("GET", "/api/devices"),
   ("POST", "/api/data/control")]

/-- A concrete engine environment representing a second importer run: the
engine is ready at once, already holds the target flow tab, and every
verification endpoint answers 200. -/
def secondRunEnv : EngineEnv :=
  { rootOutcomes := [.resp 200]
    flowsResponse := some [⟨some "tab", some "API Endpoints"⟩]
    endpointStatus := fun _ => some 200
    flowsFile := none
    importResult := none }

/-! Helper lemmas shared by the claim theorems. -/

/-- The readiness loop never makes more attempts than outcomes offered. -/
theorem waitLoop_attempts_le (l : List AttemptOutcome) :
    (waitLoop l).attemptsMade ≤ l.length := by
  induction l with
  | nil => simp [waitLoop]
  | cons o rest ih =>
    simp only [waitLoop]
    split
    · simp
    · simpa using Nat.succ_le_succ ih

/-- Every request of the readiness loop carries the same per-request timeout. -/
theorem waitLoop_timeouts (l : List AttemptOutcome) :
    (waitLoop l).requestTimeouts =
      List.replicate (waitLoop l).attemptsMade ATTEMPT_TIMEOUT := by
  induction l with
  | nil => simp [waitLoop]
  | cons o rest ih =>
    simp only [waitLoop]
    split
    · rfl
    · simpa [List.replicate_succ] using ih

/-- A failed readiness loop consumed every offered outcome. -/
theorem waitLoop_fail_length (l : List AttemptOutcome) :
    (waitLoop l).success = false → (waitLoop l).attemptsMade = l.length := by
  induction l with
  | nil => intro _; rfl
  | cons o rest ih =>
    simp only [waitLoop]
    split
    · intro h; exact absurd h (by simp)
    · intro h; simpa using ih (by simpa using h)

/-- The readiness loop stops at the first status-200 response. -/
theorem waitLoop_first_200 (pre rest : List AttemptOutcome)
    (h : ∀ o ∈ pre, o ≠ .resp 200) :
    waitLoop (pre ++ .resp 200 :: rest) =
      ⟨true, pre.length + 1, List.replicate (pre.length + 1) ATTEMPT_TIMEOUT⟩ := by
  induction pre with
  | nil => simp [waitLoop]
  | cons o pre ih =>
    have ho : ¬ o = AttemptOutcome.resp 200 := h o (List.mem_cons_self o pre)
    have hrec := ih (fun x hx => h x (List.mem_cons_of_mem o hx))
    simp only [List.cons_append, waitLoop, if_neg ho, List.append_eq, hrec,
      List.length_cons, List.replicate_succ]

/-- continueImport only ever appends to the trace it is handed. -/
theorem continueImport_trace (env : EngineEnv) (tr : List ImportStep) :
    ∃ ex, (continueImport env tr).2 = tr ++ ex := by
  unfold continueImport
  match env.flowsFile with
  | none => exact ⟨[.loadFile], rfl⟩
  | some fl =>
    by_cases hfl : fl = []
    · simp only [hfl, if_pos rfl]
      exact ⟨[.loadFile], rfl⟩
    · simp only [if_neg hfl]
      match env.importResult with
      | none => exact ⟨[.loadFile, .install], rfl⟩
      | some s =>
        by_cases hs : s = 200 ∨ s = 204
        · simp only [if_pos hs]
          exact ⟨[.loadFile, .install, .settle, .verify], rfl⟩
        · simp only [if_neg hs]
          exact ⟨[.loadFile, .install], rfl⟩

/-! Claim theorems. -/

/-- Claim C1: the resolved color name is determined case-insensitively from
the single-letter code: the outcome of apply_code depends only on the
stripped, upper-cased code; A maps to verde (green), V to rojo (red), B to
azul (blue), R to blanco (white), in either case; and every other value,
the empty string included, resolves to the default negro (black/off). -/
theorem C1_color_resolution :
    (∀ c₁ c₂ : String, pyUpper (pyStrip c₁) = pyUpper (pyStrip c₂) →
      apply_code (some ()) c₁ = apply_code (some ()) c₂) ∧
    (∀ code : String, pyUpper (pyStrip code) ∉ (["A", "V", "B", "R"] : List String) →
      ∃ acts, apply_code (some ()) code = .ok ("negro", acts)) ∧
    apply_code (some ()) "A" = .ok ("verde", [.blink "verde"]) ∧
    apply_code (some ()) "a" = .ok ("verde", [.blink "verde"]) ∧
    apply_code (some ()) "V" = .ok ("rojo", [.blink "rojo"]) ∧
    apply_code (some ()) "v" = .ok ("rojo", [.blink "rojo"]) ∧
    apply_code (some ()) "B" = .ok ("azul", [.blink "azul"]) ∧
    apply_code (some ()) "b" = .ok ("azul", [.blink "azul"]) ∧
    apply_code (some ()) "R" = .ok ("blanco", [.blink "blanco"]) ∧
    apply_code (some ()) "r" = .ok ("blanco", [.blink "blanco"]) ∧
    apply_code (some ()) "" = .ok ("negro", [.steady "negro"]) := by
  refine ⟨?_, ?_, rfl, rfl, rfl, rfl, rfl, rfl, rfl, rfl, rfl⟩
  · intro c₁ c₂ h
    simp only [apply_code, h]
  · intro code h
    simp only [List.mem_cons, List.not_mem_nil, or_false, not_or] at h
    obtain ⟨hA, hV, hB, hR⟩ := h
    refine ⟨[.steady "negro"], ?_⟩
    simp only [apply_code, if_neg hA, if_neg hV, if_neg hB, if_neg hR]
    have hA2 : (pyUpper (pyStrip code) == "A") = false := beq_eq_false_iff_ne.mpr hA
    have hV2 : (pyUpper (pyStrip code) == "V") = false := beq_eq_false_iff_ne.mpr hV
    have hB2 : (pyUpper (pyStrip code) == "B") = false := beq_eq_false_iff_ne.mpr hB
    have hR2 : (pyUpper (pyStrip code) == "R") = false := beq_eq_false_iff_ne.mpr hR
    simp [COLOR_MAP, List.lookup, hA2, hV2, hB2, hR2]

/-- Claim C1 witness: case-insensitive agreement at a concrete pair and the
default at a concrete unknown code. -/
theorem C1_color_resolution_witness :
    apply_code (some ()) "a" = apply_code (some ()) " A " ∧
    ∃ acts, apply_code (some ()) "x" = .ok ("negro", acts) :=
  ⟨C1_color_resolution.1 "a" " A " (by decide),
   C1_color_resolution.2.1 "x" (by decide)⟩

/-- Claim C9: apply_code, with the bulb initialized, normalizes its input by
stripping and upper-casing; for a code found in COLOR_MAP it blinks exactly
the mapped color and returns that color's name, and for every other code it
performs the steady negro action (no blink) and returns "negro". -/
theorem C9_apply_code_consistent :
    ∀ code : String,
      (∀ col, COLOR_MAP.lookup (pyUpper (pyStrip code)) = some col →
        apply_code (some ()) code = .ok (col, [.blink col])) ∧
      (COLOR_MAP.lookup (pyUpper (pyStrip code)) = none →
        apply_code (some ()) code = .ok ("negro", [.steady "negro"])) := by
  intro code
  by_cases hA : pyUpper (pyStrip code) = "A"
  · refine ⟨?_, ?_⟩
    · intro col hcol
      rw [hA] at hcol
      have : col = "verde" := by
        simpa [COLOR_MAP, List.lookup] using hcol.symm
      subst this
      simp [apply_code, hA, COLOR_MAP, List.lookup]
    · intro hnone
      rw [hA] at hnone
      simp [COLOR_MAP, List.lookup] at hnone
  · by_cases hV : pyUpper (pyStrip code) = "V"
    · refine ⟨?_, ?_⟩
      · intro col hcol
        rw [hV] at hcol
        have : col = "rojo" := by
          simpa [COLOR_MAP, List.lookup] using hcol.symm
        subst this
        simp [apply_code, hA, hV, COLOR_MAP, List.lookup]
      · intro hnone
        rw [hV] at hnone
        simp [COLOR_MAP, List.lookup] at hnone
    · by_cases hB : pyUpper (pyStrip code) = "B"
      · refine ⟨?_, ?_⟩
        · intro col hcol
          rw [hB] at hcol
          have : col = "azul" := by
            simpa [COLOR_MAP, List.lookup] using hcol.symm
          subst this
          simp [apply_code, hA, hV, hB, COLOR_MAP, List.lookup]
        · intro hnone
          rw [hB] at hnone
          simp [COLOR_MAP, List.lookup] at hnone
      · by_cases hR : pyUpper (pyStrip code) = "R"
        · refine ⟨?_, ?_⟩
          · intro col hcol
            rw [hR] at hcol
            have : col = "blanco" := by
              simpa [COLOR_MAP, List.lookup] using hcol.symm
            subst this
            simp [apply_code, hA, hV, hB, hR, COLOR_MAP, List.lookup]
          · intro hnone
            rw [hR] at hnone
            simp [COLOR_MAP, List.lookup] at hnone
        · have hA2 : (pyUpper (pyStrip code) == "A") = false := beq_eq_false_iff_ne.mpr hA
          have hV2 : (pyUpper (pyStrip code) == "V") = false := beq_eq_false_iff_ne.mpr hV
          have hB2 : (pyUpper (pyStrip code) == "B") = false := beq_eq_false_iff_ne.mpr hB
          have hR2 : (pyUpper (pyStrip code) == "R") = false := beq_eq_false_iff_ne.mpr hR
          refine ⟨?_, ?_⟩
          · intro col hcol
            exfalso
            simp [COLOR_MAP, List.lookup, hA2, hV2, hB2, hR2] at hcol
          · intro _
            simp only [apply_code, if_neg hA, if_neg hV, if_neg hB, if_neg hR]
            simp [COLOR_MAP, List.lookup, hA2, hV2, hB2, hR2]

/-- Claim C9 witness: a mapped code blinks its color and an unmapped one goes
steady negro. -/
theorem C9_apply_code_consistent_witness :
    apply_code (some ()) " v " = .ok ("rojo", [.blink "rojo"]) ∧
    apply_code (some ()) "zz" = .ok ("negro", [.steady "negro"]) :=
  ⟨(C9_apply_code_consistent " v ").1 "rojo" (by decide),
   (C9_apply_code_consistent "zz").2 (by decide)⟩

/-- Claim C10: format_node_red_response is a constant-shape wrapper: for every
data value and endpoint name it returns success true, the given data under
"data", source "node-red", the given endpoint, and the hard-coded constant
timestamp string "2025-08-26T00:42:45Z" rather than the current time. -/
theorem C10_format_response_constant :
    ∀ (data : JsonVal) (endpoint : String),
      jsonField (format_node_red_response data endpoint) "success" = some (.bool true) ∧
      jsonField (format_node_red_response data endpoint) "data" = some data ∧
      jsonField (format_node_red_response data endpoint) "source" = some (.str "node-red") ∧
      jsonField (format_node_red_response data endpoint) "endpoint" = some (.str endpoint) ∧
      jsonField (format_node_red_response data endpoint) "timestamp" =
        some (.str "2025-08-26T00:42:45Z") := by
  intro data endpoint
  exact ⟨rfl, rfl, rfl, rfl, rfl⟩

/-- Claim C6: check_connection is a total function of the request outcome: it
returns a record whose url is the base url and whose status is one of
connected, disconnected and error; a 200 response gives connected, any other
status gives error, a connection error gives disconnected and any other
failure gives error. -/
theorem C6_check_connection_total :
    ∀ (baseUrl : String) (outcome : ConnectionOutcome),
      ((check_connection baseUrl outcome).status = "connected" ∨
       (check_connection baseUrl outcome).status = "disconnected" ∨
       (check_connection baseUrl outcome).status = "error") ∧
      (check_connection baseUrl outcome).url = baseUrl ∧
      (check_connection baseUrl (.response 200)).status = "connected" ∧
      (∀ s : Nat, s ≠ 200 → (check_connection baseUrl (.response s)).status = "error") ∧
      (check_connection baseUrl .connectError).status = "disconnected" ∧
      (∀ m : String, (check_connection baseUrl (.otherError m)).status = "error") := by
  intro baseUrl outcome
  refine ⟨?_, ?_, rfl, ?_, rfl, fun m => rfl⟩
  · cases outcome with
    | response s =>
      by_cases h : s = 200
      · subst h; left; rfl
      · right; right; simp [check_connection, h]
    | connectError => right; left; rfl
    | otherError m => right; right; rfl
  · cases outcome with
    | response s =>
      simp only [check_connection]
      split <;> rfl
    | connectError => rfl
    | otherError m => rfl
  · intro s hs
    simp [check_connection, hs]

/-- Claim C6 witness: concrete outcomes, including a non-200 status. -/
theorem C6_check_connection_total_witness :
    (check_connection "http://localhost:1880" (.response 503)).status = "error" ∧
    (check_connection "http://localhost:1880" (.response 200)).status = "connected" ∧
    (check_connection "http://localhost:1880" .connectError).status = "disconnected" :=
  ⟨(C6_check_connection_total "http://localhost:1880" (.response 503)).2.2.2.1 503 (by decide),
   (C6_check_connection_total "http://localhost:1880" (.response 200)).2.2.1,
   (C6_check_connection_total "http://localhost:1880" .connectError).2.2.2.2.1⟩

/-- Claim C7: for every successful (2xx) engine response whose body is not
valid JSON, the client wraps the raw text instead of erroring: get_data
returns the object with the text under "data", and send_data, put_data and
delete_data return the object with the text under "response" together with
the status code; no method turns a non-JSON body by itself into an error. -/
theorem C7_nonjson_body_wrapped :
    ∀ r : HttpResponse, isSuccessStatus r.status = true → r.json = none →
      get_data (.ok r) = .ok (.obj [("data", .str r.text)]) ∧
      send_data (.ok r) =
        .ok (.obj [("response", .str r.text), ("status_code", .num (r.status : Int))]) ∧
      put_data (.ok r) =
        .ok (.obj [("response", .str r.text), ("status_code", .num (r.status : Int))]) ∧
      delete_data (.ok r) =
        .ok (.obj [("response", .str r.text), ("status_code", .num (r.status : Int))]) := by
  intro r h hj
  refine ⟨?_, ?_, ?_, ?_⟩ <;>
    simp [get_data, send_data, put_data, delete_data, h, hj]

/-- Claim C7 witness: a 200 response with plain-text body "hello". -/
theorem C7_nonjson_body_wrapped_witness :
    get_data (.ok ⟨200, "hello", none⟩) = .ok (.obj [("data", .str "hello")]) ∧
    send_data (.ok ⟨200, "hello", none⟩) =
      .ok (.obj [("response", .str "hello"), ("status_code", .num 200)]) ∧
    put_data (.ok ⟨200, "hello", none⟩) =
      .ok (.obj [("response", .str "hello"), ("status_code", .num 200)]) ∧
    delete_data (.ok ⟨200, "hello", none⟩) =
      .ok (.obj [("response", .str "hello"), ("status_code", .num 200)]) :=
  C7_nonjson_body_wrapped ⟨200, "hello", none⟩ (by decide) rfl

/-- Claim C4: when the caller passes the allow-list check and the bulb handle
is initialized, a request body whose XML cannot be parsed or lacks a
UserString element makes the notification routes (both the legacy route and
its /api/tuya/symphony alias) return 400 with no background task scheduled,
so the device is never touched. -/
theorem C4_bad_xml_returns_400 :
    ∀ (allowIp : String) (clientHost : Option String) (p : XmlParse) (e : String),
      ipAllowed allowIp clientHost = true →
      parse_user_string_from_xml p = .error e →
      symphony_legacy allowIp clientHost (some ()) (.nonempty p) = ⟨400, [], none⟩ ∧
      symphony_api allowIp clientHost (some ()) (.nonempty p) = ⟨400, [], none⟩ := by
  intro allowIp clientHost p e hip hp
  have h : symphony_legacy allowIp clientHost (some ()) (.nonempty p) = ⟨400, [], none⟩ := by
    simp [symphony_legacy, hip, hp]
  exact ⟨h, h⟩

/-- Claim C4 witness: malformed XML with no configured allow-list address. -/
theorem C4_bad_xml_returns_400_witness :
    symphony_legacy "" none (some ()) (.nonempty .malformed) = ⟨400, [], none⟩ ∧
    symphony_legacy "" (some "10.0.0.7") (some ()) (.nonempty (.parsed none)) = ⟨400, [], none⟩ :=
  ⟨(C4_bad_xml_returns_400 "" none .malformed "XML mal formado" rfl rfl).1,
   (C4_bad_xml_returns_400 "" (some "10.0.0.7") (.parsed none)
      "No se encontro UserString en el XML" (by decide) rfl).1⟩

/-- Claim C5 counterexample: with the bulb handle null, the notification route
given an empty body returns 400, not 503, so the claim that every
device-dispatch route returns 503 whenever the handle is null is false as
stated (the empty-body check of symphony_legacy runs before the null check). -/
theorem C5_null_handle_counterexample :
    (symphony_legacy "" none none RawBody.empty).status = 400 ∧
    (400 : Nat) ≠ 503 := by
  exact ⟨rfl, by decide⟩

/-- Claim C5 as amended: with the bulb handle null, /api/tuya/test and
/api/tuya/code always return 503 and schedule nothing; the notification route
schedules nothing either and returns 503 whenever the caller passes the
allow-list check and the body is non-empty, while a forbidden caller still
gets 403 and an empty body still gets 400; no route dispatches any device
command or raises an unhandled exception. -/
theorem C5_null_handle_degrades :
    ∀ (code allowIp : String) (clientHost : Option String) (raw : RawBody),
      tuya_test none = ⟨503, [], none⟩ ∧
      tuya_code none code = ⟨503, [], none⟩ ∧
      (symphony_legacy allowIp clientHost none raw).scheduled = [] ∧
      (ipAllowed allowIp clientHost = true → ∀ p, raw = .nonempty p →
        symphony_legacy allowIp clientHost none raw = ⟨503, [], none⟩) ∧
      (ipAllowed allowIp clientHost = false →
        (symphony_legacy allowIp clientHost none raw).status = 403) ∧
      (ipAllowed allowIp clientHost = true → raw = .empty →
        (symphony_legacy allowIp clientHost none raw).status = 400) := by
  intro code allowIp clientHost raw
  refine ⟨rfl, rfl, ?_, ?_, ?_, ?_⟩
  · by_cases hip : ipAllowed allowIp clientHost
    · cases raw with
      | empty => simp [symphony_legacy, hip]
      | nonempty p => simp [symphony_legacy, hip]
    · simp [symphony_legacy, hip]
  · intro hip p hp
    subst hp
    simp [symphony_legacy, hip]
  · intro hip
    simp [symphony_legacy, hip]
  · intro hip hp
    subst hp
    simp [symphony_legacy, hip]

/-- Claim C5 witness for the amended statement: concrete null-handle requests
on each route. -/
theorem C5_null_handle_degrades_witness :
    tuya_test none = ⟨503, [], none⟩ ∧
    tuya_code none "a" = ⟨503, [], none⟩ ∧
    symphony_legacy "" none none (.nonempty (.parsed (some "A"))) = ⟨503, [], none⟩ :=
  ⟨(C5_null_handle_degrades "a" "" none (.nonempty (.parsed (some "A")))).1,
   (C5_null_handle_degrades "a" "" none (.nonempty (.parsed (some "A")))).2.1,
   (C5_null_handle_degrades "a" "" none (.nonempty (.parsed (some "A")))).2.2.2.1
     rfl (.parsed (some "A")) rfl⟩

/-- Claim C8: the repository's own integration test exercises POST
/api/data/control and GET /api/devices against the service, but the FastAPI
route table of main.py contains no route matching any /api/data path and no
/api/devices route (while /api/sensors does exist), so those requests get a
404 rather than the documented proxy response. -/
theorem C8_api_data_route_missing :
    ("POST", "/api/data/control") ∈ integrationTestApiCalls ∧
    ("GET", "/api/devices") ∈ integrationTestApiCalls ∧
    handlesRequest "POST" "/api/data/control" = false ∧
    handlesRequest "GET" "/api/data/control" = false ∧
    handlesRequest "GET" "/api/data/sensors" = false ∧
    handlesRequest "GET" "/api/devices" = false ∧
    handlesRequest "GET" "/api/sensors" = true ∧
    handlesRequest "GET" "/api/tuya/code/a" = true := by
  refine ⟨by decide, by decide, by decide, by decide, by decide, by decide, by decide, by decide⟩

/-- Claim C3 counterexample: an engine that answers every poll with status 204
answers every attempt with a 2xx response, yet wait_for_node_red never
succeeds and exhausts all MAX_RETRIES attempts, so the phase does not succeed
on the first 2xx response: only status exactly 200 counts. -/
theorem C3_first_2xx_counterexample :
    isSuccessStatus 204 = true ∧
    (wait_for_node_red (List.replicate MAX_RETRIES (.resp 204))).success = false ∧
    (wait_for_node_red (List.replicate MAX_RETRIES (.resp 204))).attemptsMade = MAX_RETRIES := by
  refine ⟨by decide, by decide, by decide⟩

/-- Claim C3 as amended: the Await-Ready phase never makes more than
MAX_RETRIES attempts; every attempt carries the same fixed per-request
timeout ATTEMPT_TIMEOUT, independent of the attempt number and of the overall
budget; a failed phase made exactly MAX_RETRIES attempts; and the phase
succeeds exactly at the first response whose status is exactly 200 (any other
status, 2xx included, and any exception are retried). -/
theorem C3_await_ready_bounded :
    ∀ (outcomes pre rest : List AttemptOutcome),
      (wait_for_node_red outcomes).attemptsMade ≤ MAX_RETRIES ∧
      (wait_for_node_red outcomes).requestTimeouts =
        List.replicate (wait_for_node_red outcomes).attemptsMade ATTEMPT_TIMEOUT ∧
      ((wait_for_node_red outcomes).success = false → MAX_RETRIES ≤ outcomes.length →
        (wait_for_node_red outcomes).attemptsMade = MAX_RETRIES) ∧
      (outcomes.take MAX_RETRIES = pre ++ .resp 200 :: rest →
        (∀ o ∈ pre, o ≠ .resp 200) →
        wait_for_node_red outcomes =
          ⟨true, pre.length + 1, List.replicate (pre.length + 1) ATTEMPT_TIMEOUT⟩) := by
  intro outcomes pre rest
  refine ⟨?_, waitLoop_timeouts _, ?_, ?_⟩
  · calc (wait_for_node_red outcomes).attemptsMade
        ≤ (outcomes.take MAX_RETRIES).length := waitLoop_attempts_le _
      _ ≤ MAX_RETRIES := by simp [List.length_take_le]
  · intro hfail hlen
    have h := waitLoop_fail_length (outcomes.take MAX_RETRIES) hfail
    rw [wait_for_node_red, h, List.length_take]
    exact Nat.min_eq_left hlen
  · intro hsplit hpre
    rw [wait_for_node_red, hsplit]
    exact waitLoop_first_200 pre rest hpre

/-- Claim C3 witness: a first attempt that times out followed by a 200
response succeeds at attempt two, within the bound, with one 5-second timeout
per request. -/
theorem C3_await_ready_bounded_witness :
    (wait_for_node_red [.exn, .resp 200]).attemptsMade ≤ MAX_RETRIES ∧
    wait_for_node_red [.exn, .resp 200] = ⟨true, 2, [5, 5]⟩ :=
  ⟨(C3_await_ready_bounded [.exn, .resp 200] [.exn] []).1,
   (C3_await_ready_bounded [.exn, .resp 200] [.exn] []).2.2.2 (by decide)
     (by decide)⟩

/-- Claim C2: an importer run against a ready engine whose flow list already
contains a tab labeled "API Endpoints" proceeds from the existence check
directly to endpoint verification, before any install could happen; and when
that verification succeeds (the situation after a completed first run) the
run reports success with neither the Install nor the Deploy step executed, so
a second run is idempotent. -/
theorem C2_existing_flows_skip_reupload :
    ∀ env : EngineEnv,
      (wait_for_node_red env.rootOutcomes).success = true →
      check_flows_exist env.flowsResponse = true →
      (∃ rest, (runImport env).2 = [.awaitReady, .checkFlows, .verify] ++ rest) ∧
      (verify_endpoints env = true →
        runImport env = (true, [.awaitReady, .checkFlows, .verify]) ∧
        ImportStep.install ∉ (runImport env).2 ∧
        ImportStep.deploy ∉ (runImport env).2) := by
  intro env hready hexists
  have hrun : runImport env =
      if verify_endpoints env then (true, [.awaitReady, .checkFlows, .verify])
      else continueImport env [.awaitReady, .checkFlows, .verify] := by
    simp [runImport, hready, hexists]
  refine ⟨?_, ?_⟩
  · by_cases hv : verify_endpoints env
    · exact ⟨[], by simp [hrun, hv]⟩
    · obtain ⟨ex, hex⟩ := continueImport_trace env [.awaitReady, .checkFlows, .verify]
      exact ⟨ex, by simp only [hrun, if_neg hv]; exact hex⟩
  · intro hv
    have heq : runImport env = (true, [.awaitReady, .checkFlows, .verify]) := by
      simp [hrun, hv]
    refine ⟨heq, ?_, ?_⟩ <;> rw [heq] <;> decide

/-- Claim C2 witness: the concrete second-run environment (ready engine, tab
already present, endpoints healthy) skips straight to verification. -/
theorem C2_existing_flows_skip_reupload_witness :
    runImport secondRunEnv = (true, [.awaitReady, .checkFlows, .verify]) ∧
    ImportStep.install ∉ (runImport secondRunEnv).2 :=
  ⟨((C2_existing_flows_skip_reupload secondRunEnv (by decide) (by decide)).2
      (by decide)).1,
   ((C2_existing_flows_skip_reupload secondRunEnv (by decide) (by decide)).2
      (by decide)).2.1⟩
